import Mathlib

/-!
Verification of the UHF RFID reader protocol core (`rfid_core.py` and
`serial_handler.py`): the continuous-inventory byte-stream decoder, the
command-frame builders and their checksums, the synchronous send/retry
channel, and the session-state effects of the select/stop/disconnect
operations.  Machine bytes are modelled as `Nat` values below 256; the
card-notification decoder is modelled as a pure function over the byte
buffer, threading the `read_failed_logged` latch exactly as the source.
-/

namespace RFIDCore

/-- Decimal-digit or uppercase-hex-digit character for a value in 0..15,
as produced by the Python format `X`. -/
def hexDigitChar (n : Nat) : Char :=
  if n < 10 then Char.ofNat (48 + n) else Char.ofNat (55 + n)

/-- Two-character uppercase hex rendering of a byte, as the Python format
string produces for values below 256 (the only values a bytearray holds). -/
def hexByte (b : Nat) : String :=
  String.mk [hexDigitChar (b / 16), hexDigitChar (b % 16)]

/-- Signed RSSI conversion, `rfid_core.py` lines 424-428: a raw byte above
127 denotes a negative two's-complement value. -/
def rssiDbm (rssiRaw : Nat) : Int :=
  if rssiRaw > 127 then -((256 : Int) - rssiRaw) else -(rssiRaw : Int)

/-- The card-information dictionary built by the reader: all four fields are
the formatted strings of the source (`rfid_core.py` lines 446-451). -/
structure CardInfo where
  rssi : String
  pc : String
  epc : String
  crc : String
  deriving DecidableEq, Repr

/-- Field extraction from a 24-byte card-notification packet,
`rfid_core.py` lines 423-451: RSSI from byte 5, PC from bytes 6-7,
EPC from bytes 8-19, CRC from bytes 20-21. -/
def parseCardPacket (packet : List Nat) : CardInfo :=
  { rssi := toString (rssiDbm (packet.getD 5 0))
    pc := hexByte (packet.getD 6 0) ++ " " ++ hexByte (packet.getD 7 0)
    epc := String.intercalate " " (((packet.drop 8).take 12).map hexByte)
    crc := hexByte (packet.getD 20 0) ++ " " ++ hexByte (packet.getD 21 0) }

/-- Observable events of the inventory read loop: a delivered card callback
or a missed-read notification (the log emitted under the
`read_failed_logged` latch). -/
inductive RWEvent where
  | card (info : CardInfo)
  | missedRead
  deriving DecidableEq, Repr

/-- The inner packet-scanning loop of `RFIDReader._read_thread_func`
(`rfid_core.py` lines 382-458), as a pure function: given remaining fuel
(one unit per loop iteration), the byte buffer and the
`read_failed_logged` latch, it returns the emitted events in order, the
unconsumed buffer tail, and the final latch value.  Every iteration that
continues the loop consumes at least one byte, so fuel equal to the buffer
length runs the loop to its natural exit. -/
def processBufferFuel : Nat → List Nat → Bool → List RWEvent × List Nat × Bool
  | 0, buffer, latch => ([], buffer, latch)
  | _ + 1, [], latch => ([], [], latch)
  | fuel + 1, b :: rest, latch =>
    if b ≠ 0xBB then
      processBufferFuel fuel rest latch
    else if (b :: rest).length < 7 then
      ([], b :: rest, latch)
    else
      let buffer := b :: rest
      let frameType := buffer.getD 1 0
      let command := buffer.getD 2 0
      if frameType = 0x01 ∧ command = 0xFF then
        if 8 ≤ buffer.length then
          let r := processBufferFuel fuel (buffer.drop 8) true
          if latch then r else (RWEvent.missedRead :: r.1, r.2.1, r.2.2)
        else
          ([], buffer, latch)
      else if frameType = 0x02 ∧ (command = 0x22 ∨ command = 0x27) then
        if buffer.length < 24 then
          ([], buffer, latch)
        else if buffer.getD 23 0 ≠ 0x7E then
          processBufferFuel fuel rest latch
        else
          let packet := buffer.take 24
          let rest24 := buffer.drop 24
          if (packet.getD 3 0) <<< 8 ||| packet.getD 4 0 ≠ 0x11 then
            processBufferFuel fuel rest24 latch
          else if ((packet.drop 1).take 21).sum &&& 0xFF ≠ packet.getD 22 0 then
            processBufferFuel fuel rest24 latch
          else
            let r := processBufferFuel fuel rest24 false
            (RWEvent.card (parseCardPacket packet) :: r.1, r.2.1, r.2.2)
      else
        processBufferFuel fuel rest latch

/-- One full pass of the read-loop over a byte buffer, with fuel fixed at
the buffer length (sufficient, since each continuing iteration consumes at
least one byte). -/
def processBuffer (buffer : List Nat) (latch : Bool) :
    List RWEvent × List Nat × Bool :=
  processBufferFuel buffer.length buffer latch

/-- The literal 24-byte card-notification frame of the specification. -/
def exampleCardFrame : List Nat :=
  [0xBB, 0x02, 0x22, 0x00, 0x11, 0x30, 0x30, 0x00, 0xAA, 0xBB, 0xCC, 0xDD,
   0xEE, 0xFF, 0x11, 0x22, 0x33, 0x44, 0x55, 0x66, 0x12, 0x34, 0x3B, 0x7E]

/-- Command frame built by `RFIDReader.set_select_mode` (`rfid_core.py`
lines 621-632): header, type, code 0x12, 16-bit length 1, the mode byte,
then the checksum of bytes 1 through 5 and the 0x7E terminator. -/
def setSelectModeCmd (mode : Nat) : List Nat :=
  let command : List Nat := [0xBB, 0x00, 0x12, 0x00, 0x01, mode]
  command ++ [((command.drop 1).take 5).sum &&& 0xFF, 0x7E]

/-- Command frame built by `RFIDReader.set_select_params` for a 12-byte
mask (`rfid_core.py` lines 687-706): fixed SelParam/pointer/mask-length/
truncate constants, the 12 EPC bytes, the checksum of bytes 1 through 23
and the terminator. -/
def setSelectMaskCmd (epcBytes : List Nat) : List Nat :=
  let command : List Nat :=
    [0xBB, 0x00, 0x0C, 0x00, 0x13, 0x01, 0x00, 0x00, 0x00, 0x20, 0x60, 0x00]
      ++ epcBytes
  command ++ [((command.drop 1).take 23).sum &&& 0xFF, 0x7E]

/-- Command frame built by `RFIDReader.write_epc` (`rfid_core.py` lines
949-973): code 0x49, the 4 password bytes, memory bank 1, word address 2,
word count 6, the 12 EPC bytes, then `sum(command[1:]) % 256` and the
terminator. -/
def writeEpcCmd (pwdBytes epcBytes : List Nat) : List Nat :=
  let command : List Nat :=
    [0xBB, 0x00, 0x49, 0x00, 0x11] ++ pwdBytes ++ [0x01, 0x02, 0x00, 0x06]
      ++ epcBytes
  command ++ [(command.drop 1).sum % 256, 0x7E]

/-- Command frame built by `RFIDReader.read_tag_memory` (`rfid_core.py`
lines 847-871): code 0x39, the 4 password bytes, the memory bank and the
little-endian address and length words (each byte masked to 8 bits), then
the checksum of everything after the header and the terminator. -/
def readTagMemoryCmd (pwdBytes : List Nat)
    (membank startAddr readLen : Nat) : List Nat :=
  let command : List Nat :=
    [0xBB, 0x00, 0x39, 0x00, 0x09] ++ pwdBytes ++
      [membank &&& 0xFF, startAddr &&& 0xFF, (startAddr >>> 8) &&& 0xFF,
       readLen &&& 0xFF, (readLen >>> 8) &&& 0xFF]
  command ++ [(command.drop 1).sum &&& 0xFF, 0x7E]

/-- The checksum contract of the specification: the second-to-last byte of
an encoded frame equals the sum of the bytes from index 1 (the frame type)
through the last payload byte — everything except the header, the checksum
itself and the terminator — taken mod 256. -/
def checksumSpecHolds (frame : List Nat) : Prop :=
  frame.getD (frame.length - 2) 0 =
    ((frame.drop 1).take (frame.length - 3)).sum % 256

/-- Retry bound of `RFIDReader.send_command`, `rfid_core.py` line 174. -/
def MAX_RETRIES : Nat := 3

/-- Inter-attempt delay of `send_command` in milliseconds (line 175,
`retry_delay = 0.1` seconds). -/
def RETRY_DELAY_MS : Nat := 100

/-- Per-attempt wait bound of `send_command` in milliseconds (line 201,
`max_wait = 1.0` seconds). -/
def MAX_WAIT_MS : Nat := 1000

/-- Sleep taken between availability polls, in milliseconds (line 211,
`time.sleep(0.01)`). -/
def SLEEP_POLL_MS : Nat := 10

/-- The response-polling loop of `send_command` (`rfid_core.py` lines
199-212) over an abstract byte schedule: `input t` is the byte available at
the t-th poll (`none` models `in_waiting == 0`).  The wait clock advances
10 ms per empty poll only, and the loop exits on a 0x7E byte or once the
accumulated wait reaches 100 ticks (1 second).  Fuel bounds the modelled
iteration count; the result is the accumulated response together with the
number of empty polls, i.e. the slept time in 10 ms units. -/
def pollResponse (input : Nat → Option Nat) :
    Nat → Nat → Nat → List Nat → List Nat × Nat
  | 0, _, waitCs, acc => (acc, waitCs)
  | fuel + 1, iter, waitCs, acc =>
    if 100 ≤ waitCs then (acc, waitCs)
    else
      match input iter with
      | some b =>
        if b = 0x7E then (acc ++ [b], waitCs)
        else pollResponse input fuel (iter + 1) waitCs (acc ++ [b])
      | none => pollResponse input fuel (iter + 1) (waitCs + 1) acc

/-- Outcome of the synchronous send operation. -/
inductive SendOutcome where
  | response (bytes : List Nat)
  /-- The `RFIDDeviceError` raised on the final empty attempt
  (`rfid_core.py` line 221). -/
  | timeoutError
  /-- The unreachable fall-through error of line 239. -/
  | exhausted
  deriving DecidableEq, Repr

/-- The retry loop of `send_command` (`rfid_core.py` lines 177-239) for the
exception-free path: each attempt polls for a response; an empty
accumulated response retries after the 100 ms delay, except on the final
attempt, which raises the timeout error.  `input a t` is the byte schedule
of attempt `a`; the second result component is the total elapsed wait in
milliseconds (poll sleeps plus inter-attempt delays). -/
def sendRetries (input : Nat → Nat → Option Nat) :
    Nat → Nat → SendOutcome × Nat
  | 0, elapsed => (SendOutcome.exhausted, elapsed)
  | left + 1, elapsed =>
    let attempt := MAX_RETRIES - (left + 1)
    let r := pollResponse (input attempt) 101 0 0 []
    let elapsed1 := elapsed + r.2 * SLEEP_POLL_MS
    if r.1 = [] then
      if left = 0 then (SendOutcome.timeoutError, elapsed1)
      else sendRetries input left (elapsed1 + RETRY_DELAY_MS)
    else
      (SendOutcome.response r.1, elapsed1)

/-- `send_command` on a connected port, as a function of the per-attempt
byte schedules: three attempts with 100 ms between them. -/
def sendCommandModel (input : Nat → Nat → Option Nat) : SendOutcome × Nat :=
  sendRetries input MAX_RETRIES 0

/-- A well-formed 24-byte card-notification frame: header 0xBB,
notification type 0x02, command 0x22 or 0x27, big-endian payload length
0x0011, terminator 0x7E at offset 23, and a checksum byte at offset 22
matching the sum of bytes 1 through 21 mod 256; every byte is a machine
byte (below 256). -/
def isCardFrame (f : List Nat) : Prop :=
  f.length = 24 ∧ (∀ b ∈ f, b < 256) ∧
  f.getD 0 0 = 0xBB ∧ f.getD 1 0 = 0x02 ∧
  (f.getD 2 0 = 0x22 ∨ f.getD 2 0 = 0x27) ∧
  f.getD 3 0 = 0x00 ∧ f.getD 4 0 = 0x11 ∧ f.getD 23 0 = 0x7E ∧
  ((f.drop 1).take 21).sum % 256 = f.getD 22 0

/-- The once-per-failure-streak contract on an event list: under the
current latch value, a missed-read event may occur only while the latch is
clear and sets it; a card event clears it again.  `latchRespects false es`
therefore says that in `es` no two missed-read events occur without an
intervening card event. -/
def latchRespects : Bool → List RWEvent → Prop
  | _, [] => True
  | _, RWEvent.card _ :: es => latchRespects false es
  | latch, RWEvent.missedRead :: es => latch = false ∧ latchRespects true es

/-- Value of one hexadecimal digit character (0-9, A-F, a-f), as accepted
by Python `bytes.fromhex`; other characters raise `ValueError`. -/
def hexVal (c : Char) : Option Nat :=
  if 48 ≤ c.toNat ∧ c.toNat ≤ 57 then some (c.toNat - 48)
  else if 65 ≤ c.toNat ∧ c.toNat ≤ 70 then some (c.toNat - 55)
  else if 97 ≤ c.toNat ∧ c.toNat ≤ 102 then some (c.toNat - 87)
  else none

/-- `bytes.fromhex` on a space-free character sequence: consecutive pairs
of hex digits become bytes; an odd digit count or a non-hex character
raises `ValueError`, modelled as `none`. -/
def hexDecode : List Char → Option (List Nat)
  | [] => some []
  | [_] => none
  | c1 :: c2 :: rest =>
    match hexVal c1, hexVal c2, hexDecode rest with
    | some hi, some lo, some bs => some ((16 * hi + lo) :: bs)
    | _, _, _ => none

/-- Response validation of `set_select_mode`, `rfid_core.py` lines
638-646: non-empty, at least 8 bytes, fixed header/«type»/code/length
prefix, status byte 0 and terminator at offset 7. -/
def selectModeRespOk (resp : List Nat) : Bool :=
  !resp.isEmpty && resp.length ≥ 8 && resp.getD 0 0 == 0xBB &&
    resp.getD 1 0 == 0x01 && resp.getD 2 0 == 0x12 && resp.getD 3 0 == 0x00 &&
    resp.getD 4 0 == 0x01 && resp.getD 5 0 == 0x00 && resp.getD 7 0 == 0x7E

/-- Response validation of the Select-mask command, `rfid_core.py` lines
712-719. -/
def selectMaskRespOk (resp : List Nat) : Bool :=
  !resp.isEmpty && resp.length ≥ 8 && resp.getD 0 0 == 0xBB &&
    resp.getD 1 0 == 0x01 && resp.getD 2 0 == 0x0C && resp.getD 3 0 == 0x00 &&
    resp.getD 4 0 == 0x01 && resp.getD 5 0 == 0x00

/-- `RFIDReader.set_select_mode` on a connected session (`rfid_core.py`
lines 605-661), against an abstract transport `send` mapping each written
frame to the device response: the success flag together with the frames
written. -/
def setSelectModeRun (send : List Nat → List Nat) (mode : Nat) :
    Bool × List (List Nat) :=
  let cmd := setSelectModeCmd mode
  (selectModeRespOk (send cmd), [cmd])

/-- Python truthiness of the optional EPC argument of
`set_select_params`: `None` and the empty string are falsy and select the
clear-Select branch. -/
def targetTruthy : Option (List Char) → Bool
  | none => false
  | some s => !s.isEmpty

/-- `RFIDReader.set_select_params` on a connected session (`rfid_core.py`
lines 663-743) against an abstract transport: the Python return flag and
the frames written to the port, in order.  A truthy EPC argument is
stripped of spaces and hex-decoded; a `ValueError` or a byte length other
than 12 returns `False` before anything is written.  Otherwise the 0x0C
mask command is written, and when its response validates, Select mode
0x02 is set with a second write; a falsy argument clears Select by
writing the mode command 0x01 only, returning `True`. -/
def setSelectParamsRun (send : List Nat → List Nat)
    (target : Option (List Char)) : Bool × List (List Nat) :=
  if targetTruthy target then
    match hexDecode ((target.getD []).filter (fun c => !(c == Char.ofNat 32))) with
    | none => (false, [])
    | some epcBytes =>
      if epcBytes.length ≠ 12 then (false, [])
      else
        let cmd := setSelectMaskCmd epcBytes
        let resp := send cmd
        if selectMaskRespOk resp then (true, cmd :: (setSelectModeRun send 0x02).2)
        else (false, [cmd])
  else
    (true, (setSelectModeRun send 0x01).2)

/-- Session-state fields of `RFIDReader` relevant to the claims
(`rfid_core.py` lines 54-61 and line 104): the open-port handle (collapsed
to the port name, `none` meaning closed or absent), the remembered
`last_port`, the group-read flag, and the cached power label, gain and
Select settings.  The source stores the gain as `pow_value / 100` (a
float); the model keeps the raw 16-bit `pow_value`, which carries the same
presence information. -/
structure ReaderState where
  ser : Option String
  lastPort : Option String
  groupReadActive : Bool
  currentPower : Option String
  gain : Option Nat
  selectMode : Nat
  selectParam : Option (List Char)
  deriving DecidableEq, Repr

/-- The fixed stop-inventory command, `rfid_core.py` line 477. -/
def stopInventoryCmd : List Nat := [0xBB, 0x00, 0x28, 0x00, 0x00, 0x28, 0x7E]

/-- `RFIDReader.stop_reading` (`rfid_core.py` lines 463-492): fails when
the port is not open; succeeds immediately when group reading is already
stopped, writing nothing; otherwise writes the stop command and, when the
exchange succeeds (`sendOk`), clears the group-read flag — on a send error
the flag is left set and `False` is returned.  Result: the returned flag,
the new state, and the frames written. -/
def stopReadingModel (st : ReaderState) (sendOk : Bool) :
    Bool × ReaderState × List (List Nat) :=
  match st.ser with
  | none => (false, st, [])
  | some _ =>
    if !st.groupReadActive then (true, st, [])
    else if sendOk then
      (true, { st with groupReadActive := false }, [stopInventoryCmd])
    else
      (false, st, [stopInventoryCmd])

/-- `RFIDReader.disconnect` (`rfid_core.py` lines 122-147): a no-op on an
already-closed session; otherwise stops group reading first when it is
active, closes the port (`closeOk` is the close outcome and the returned
flag) and sets the handle to `None`.  No other field is assigned. -/
def disconnectModel (st : ReaderState) (sendOk closeOk : Bool) :
    Bool × ReaderState × List (List Nat) :=
  match st.ser with
  | none => (true, st, [])
  | some _ =>
    let s1 := if st.groupReadActive then (stopReadingModel st sendOk).2.1 else st
    let w1 := if st.groupReadActive then (stopReadingModel st sendOk).2.2 else []
    (closeOk, { s1 with ser := none }, w1)

/-- `RFIDReader.connect` (`rfid_core.py` lines 78-120), collapsed to its
state effect: on success (`ok` — the port is listed and opens) the handle
and `last_port` are set (lines 103-104); on failure the handle is cleared
(line 119).  The best-effort initial gain query is claim-irrelevant here
and not modelled. -/
def connectModel (st : ReaderState) (port : String) (ok : Bool) :
    Bool × ReaderState :=
  if ok then (true, { st with ser := some port, lastPort := some port })
  else (false, { st with ser := none })

/-- Outcome of the `send_command` exchange inside `read_card_once`: a
response; the transport-level failure (`RFIDDeviceError` raised after
`self.ser` was cleared — serial exception, reset failure or closed-port
detection, `rfid_core.py` lines 181-191 and 225-229); or the timeout
failure raised with the port still open (line 221). -/
inductive SendExc where
  | respOk (resp : List Nat)
  | excDisconnected
  | excTimeout
  deriving DecidableEq, Repr

/-- Response parsing of `read_card_once` (`rfid_core.py` lines 259-316):
a response shorter than 8 bytes, an error response or an unknown header
yields `None`; a `BB 02 22` response of at least 22 bytes is parsed into
the card-information strings exactly as the inventory packets are. -/
def readCardOnceParse (resp : List Nat) : Option CardInfo :=
  if resp.length < 8 then none
  else if resp.take 3 = [0xBB, 0x02, 0x22] then
    if resp.length < 22 then none
    else some (parseCardPacket resp)
  else none

/-- `RFIDReader.read_card_once` (`rfid_core.py` lines 241-331) on the
three exchange outcomes.  After a transport-level failure (port handle
cleared) the handler of lines 318-327 runs `self.connect(self.last_port)`
when a last port is recorded; the third result component lists the ports
the operation itself passed to `connect` — its automatic reconnect
attempts. -/
def readCardOnceModel (st : ReaderState) (outcome : SendExc)
    (connectOk : Bool) : Option CardInfo × ReaderState × List String :=
  match st.ser with
  | none => (none, st, [])
  | some _ =>
    match outcome with
    | SendExc.respOk resp => (readCardOnceParse resp, st, [])
    | SendExc.excTimeout => (none, st, [])
    | SendExc.excDisconnected =>
      let st1 := { st with ser := none }
      match st1.lastPort with
      | some p => (none, (connectModel st1 p connectOk).2, [p])
      | none => (none, st1, [])

/-- A connected, idle session with a cached gain, used as a concrete
instance. -/
def sampleConnectedState : ReaderState :=
  { ser := some "COM3", lastPort := some "COM3", groupReadActive := false,
    currentPower := some "17 dBm (1m)", gain := some 1700, selectMode := 2,
    selectParam := some [Char.ofNat 65] }

/-- A disconnected session still marked as group-reading, used as a
concrete instance. -/
def sampleStuckState : ReaderState :=
  { ser := none, lastPort := some "COM3", groupReadActive := true,
    currentPower := none, gain := none, selectMode := 1,
    selectParam := none }

end RFIDCore

namespace RFIDCore

theorem land255_eq_mod (n : Nat) : n &&& 0xFF = n % 256 := by
  have h := Nat.and_pow_two_sub_one_eq_mod n 8
  norm_num at h
  exact h

theorem checksumSpec_append (c : Nat) (cs : List Nat) (chk : Nat)
    (h : chk = cs.sum % 256) :
    checksumSpecHolds ((c :: cs) ++ [chk, 0x7E]) := by
  unfold checksumSpecHolds
  have hlen : ((c :: cs) ++ [chk, 0x7E]).length = cs.length + 3 := by simp
  rw [hlen]
  have h2 : cs.length + 3 - 2 = cs.length + 1 := by omega
  have h3 : cs.length + 3 - 3 = cs.length := by omega
  rw [h2, h3]
  have hget : ((c :: cs) ++ [chk, 0x7E]).getD (cs.length + 1) 0 = chk := by
    rw [List.cons_append, List.getD_eq_getElem?_getD, List.getElem?_cons_succ,
      List.getElem?_append]
    simp
  have htake : (((c :: cs) ++ [chk, 0x7E]).drop 1).take cs.length = cs := by
    rw [List.cons_append]
    simp [List.take_left]
  rw [hget, htake, h]

theorem setSelectModeCmd_checksum (mode : Nat) :
    checksumSpecHolds (setSelectModeCmd mode) := by
  unfold setSelectModeCmd
  refine checksumSpec_append _ _ _ ?_
  rw [land255_eq_mod]
  rfl

theorem setSelectMaskCmd_checksum (epcBytes : List Nat)
    (hepc : epcBytes.length = 12) :
    checksumSpecHolds (setSelectMaskCmd epcBytes) := by
  unfold setSelectMaskCmd
  refine checksumSpec_append _ _ _ ?_
  rw [land255_eq_mod]
  have hd :
      ([0xBB, 0x00, 0x0C, 0x00, 0x13, 0x01, 0x00, 0x00, 0x00, 0x20, 0x60, 0x00]
          ++ epcBytes).drop 1 =
        [0x00, 0x0C, 0x00, 0x13, 0x01, 0x00, 0x00, 0x00, 0x20, 0x60, 0x00]
          ++ epcBytes := rfl
  rw [hd, List.take_of_length_le (by simp [hepc])]
  rfl

theorem writeEpcCmd_checksum (pwdBytes epcBytes : List Nat) :
    checksumSpecHolds (writeEpcCmd pwdBytes epcBytes) := by
  unfold writeEpcCmd
  refine checksumSpec_append _ _ _ ?_
  rfl

theorem readTagMemoryCmd_checksum (pwdBytes : List Nat)
    (membank startAddr readLen : Nat) :
    checksumSpecHolds (readTagMemoryCmd pwdBytes membank startAddr readLen) := by
  unfold readTagMemoryCmd
  refine checksumSpec_append _ _ _ ?_
  rw [land255_eq_mod]
  rfl

/-- **C3.** Every command frame produced by a builder — set Select mode for
any mode byte, set Select mask for any 12-byte EPC, write EPC for any
12-byte EPC and 4-byte password, read tag memory for any arguments —
carries as its second-to-last byte the sum of all bytes from index 1 (the
frame type) through the last payload byte, mod 256. -/
theorem command_builders_checksum (mode : Nat) (epcBytes pwdBytes : List Nat)
    (membank startAddr readLen : Nat)
    (hepc : epcBytes.length = 12) (hpwd : pwdBytes.length = 4) :
    checksumSpecHolds (setSelectModeCmd mode) ∧
    checksumSpecHolds (setSelectMaskCmd epcBytes) ∧
    checksumSpecHolds (writeEpcCmd pwdBytes epcBytes) ∧
    checksumSpecHolds (readTagMemoryCmd pwdBytes membank startAddr readLen) :=
  ⟨setSelectModeCmd_checksum mode, setSelectMaskCmd_checksum epcBytes hepc,
    writeEpcCmd_checksum pwdBytes epcBytes,
    readTagMemoryCmd_checksum pwdBytes membank startAddr readLen⟩

theorem take_set_comm {α : Type _} (a : α) :
    ∀ (l : List α) (i n : Nat), i < n →
      (l.set i a).take n = (l.take n).set i a := by
  intro l
  induction l with
  | nil => intro i n _; simp
  | cons x xs ih =>
    intro i n h
    cases i with
    | zero =>
      cases n with
      | zero => omega
      | succ m => simp
    | succ j =>
      cases n with
      | zero => omega
      | succ m =>
        simp only [List.set_cons_succ, List.take_succ_cons]
        rw [ih j m (by omega)]

theorem drop_set_comm {α : Type _} (a : α) :
    ∀ (n : Nat) (l : List α) (i : Nat), n ≤ i →
      (l.set i a).drop n = (l.drop n).set (i - n) a := by
  intro n
  induction n with
  | zero => intro l i _; simp
  | succ m ih =>
    intro l i h
    cases l with
    | nil => simp
    | cons x xs =>
      cases i with
      | zero => omega
      | succ j =>
        simp only [List.set_cons_succ, List.drop_succ_cons]
        rw [ih xs j (by omega), show j + 1 - (m + 1) = j - m from by omega]

theorem sum_set_getD :
    ∀ (l : List Nat) (i c : Nat), i < l.length →
      (l.set i c).sum + l.getD i 0 = l.sum + c := by
  intro l
  induction l with
  | nil => intro i c h; simp at h
  | cons x xs ih =>
    intro i c h
    cases i with
    | zero =>
      simp only [List.set_cons_zero, List.sum_cons, List.getD_cons_zero]
      omega
    | succ j =>
      simp only [List.set_cons_succ, List.sum_cons, List.getD_cons_succ]
      have hj := ih j c (by simp at h; omega)
      omega

theorem getD_set_ne (l : List Nat) (i j c : Nat) (h : i ≠ j) :
    (l.set i c).getD j 0 = l.getD j 0 := by
  rw [List.getD_eq_getElem?_getD, List.getD_eq_getElem?_getD,
    List.getElem?_set_ne h]

theorem getD_append_left (l1 l2 : List Nat) (i : Nat) (h : i < l1.length) :
    (l1 ++ l2).getD i 0 = l1.getD i 0 := by
  rw [List.getD_eq_getElem?_getD, List.getD_eq_getElem?_getD,
    List.getElem?_append, if_pos h]

theorem getD_take_24 (l : List Nat) (j : Nat) (h : j < 24) :
    (l.take 24).getD j 0 = l.getD j 0 := by
  rw [List.getD_eq_getElem?_getD, List.getD_eq_getElem?_getD,
    List.getElem?_take, if_pos h]

theorem window_take_24 (l : List Nat) :
    ((l.take 24).drop 1).take 21 = (l.drop 1).take 21 := by
  rw [List.drop_take, List.take_take]
  norm_num

theorem window_append_left (l1 l2 : List Nat) (h : 22 ≤ l1.length) :
    ((l1 ++ l2).drop 1).take 21 = (l1.drop 1).take 21 := by
  rw [List.drop_append_of_le_length (by omega),
    List.take_append_of_le_length (by simp [List.length_drop]; omega)]

theorem processBufferFuel_nil (fuel : Nat) (latch : Bool) :
    processBufferFuel fuel [] latch = ([], [], latch) := by
  cases fuel <;> rfl

/-- Stepping the read loop over a 24-byte-aligned card packet whose
checksum does not match: the packet is dropped silently, the latch is
untouched, and scanning resumes after it. -/
theorem processBufferFuel_card_drop (fuel : Nat) (buf : List Nat)
    (latch : Bool)
    (h0 : buf.getD 0 0 = 0xBB) (h1 : buf.getD 1 0 = 0x02)
    (h2 : buf.getD 2 0 = 0x22 ∨ buf.getD 2 0 = 0x27)
    (h3 : buf.getD 3 0 = 0x00) (h4 : buf.getD 4 0 = 0x11)
    (hlen : 24 ≤ buf.length) (hend : buf.getD 23 0 = 0x7E)
    (hsum : ¬ ((buf.drop 1).take 21).sum % 256 = buf.getD 22 0) :
    processBufferFuel (fuel + 1) buf latch =
      processBufferFuel fuel (buf.drop 24) latch := by
  cases buf with
  | nil => simp at hlen
  | cons b rest =>
    have hb : b = 0xBB := by simpa using h0
    subst hb
    simp only [List.length_cons] at hlen
    simp at h1 h2 h3 h4 hend hsum
    rcases h2 with h2 | h2 <;>
      simp [processBufferFuel, h1, h2, h3, h4, hend, hsum, land255_eq_mod,
        List.take_take, show (21 ⊓ 23 : Nat) = 21 from by norm_num,
        show ¬ (rest.length + 1 < 7) from by omega,
        show ¬ (rest.length + 1 < 24) from by omega]

/-- Stepping the read loop over a well-aligned card packet with a correct
length field and checksum: the card event is emitted, the packet is
consumed and the latch is cleared. -/
theorem processBufferFuel_card_accept (fuel : Nat) (buf : List Nat)
    (latch : Bool)
    (h0 : buf.getD 0 0 = 0xBB) (h1 : buf.getD 1 0 = 0x02)
    (h2 : buf.getD 2 0 = 0x22 ∨ buf.getD 2 0 = 0x27)
    (h3 : buf.getD 3 0 = 0x00) (h4 : buf.getD 4 0 = 0x11)
    (hlen : 24 ≤ buf.length) (hend : buf.getD 23 0 = 0x7E)
    (hsum : ((buf.drop 1).take 21).sum % 256 = buf.getD 22 0) :
    processBufferFuel (fuel + 1) buf latch =
      (RWEvent.card (parseCardPacket (buf.take 24)) ::
          (processBufferFuel fuel (buf.drop 24) false).1,
        (processBufferFuel fuel (buf.drop 24) false).2.1,
        (processBufferFuel fuel (buf.drop 24) false).2.2) := by
  cases buf with
  | nil => simp at hlen
  | cons b rest =>
    have hb : b = 0xBB := by simpa using h0
    subst hb
    simp only [List.length_cons] at hlen
    simp at h1 h2 h3 h4 hend hsum
    rcases h2 with h2 | h2 <;>
      simp [processBufferFuel, h1, h2, h3, h4, hend, hsum, land255_eq_mod,
        List.take_take, show (21 ⊓ 23 : Nat) = 21 from by norm_num,
        show ¬ (rest.length + 1 < 7) from by omega,
        show ¬ (rest.length + 1 < 24) from by omega]

theorem latchRespects_processBufferFuel :
    ∀ (fuel : Nat) (buf : List Nat) (latch : Bool),
      latchRespects latch (processBufferFuel fuel buf latch).1 := by
  intro fuel
  induction fuel with
  | zero => intro buf latch; simp [processBufferFuel, latchRespects]
  | succ n ih =>
    intro buf latch
    cases buf with
    | nil => simp [processBufferFuel, latchRespects]
    | cons b rest =>
      cases latch <;>
        (simp only [processBufferFuel]
         split_ifs <;>
           first
           | exact ih _ _
           | exact ⟨rfl, ih _ _⟩
           | simp_all [latchRespects])

/-- **C4.** For every input byte stream fed to the inventory decoder loop —
which starts with the failure latch clear — the missed-read notification is
emitted at most once per consecutive streak of error/no-tag frames: once
emitted, no further missed-read event occurs until a successfully decoded
card read has cleared the latch. -/
theorem missed_read_once_per_streak (buf : List Nat) :
    latchRespects false (processBuffer buf false).1 :=
  latchRespects_processBufferFuel buf.length buf false

/-- **C2.** Corrupting any single payload byte (offsets 5 through 21) of a
well-formed 24-byte card-notification frame, without recomputing the
checksum, makes the inventory decoder drop the frame silently: no card
event is emitted, no error event exists, the latch is untouched; and a
valid card frame appended after the corrupted one in the same buffer is
still decoded and delivered as the only event. -/
theorem corrupted_card_frame_dropped (f1 f2 : List Nat) (i c : Nat)
    (latch : Bool) (hf1 : isCardFrame f1) (hf2 : isCardFrame f2)
    (hi5 : 5 ≤ i) (hi21 : i ≤ 21) (hc : c < 256) (hne : c ≠ f1.getD i 0) :
    processBuffer (f1.set i c) latch = ([], [], latch) ∧
    processBuffer (f1.set i c ++ f2) latch =
      ([RWEvent.card (parseCardPacket f2)], [], false) := by
  obtain ⟨hl1, hb1, h01, h11, h21, h31, h41, he1, hs1⟩ := hf1
  obtain ⟨hl2, hb2, h02, h12, h22, h32, h42, he2, hs2⟩ := hf2
  have hlg : (f1.set i c).length = 24 := by rw [List.length_set]; exact hl1
  have hg0 : (f1.set i c).getD 0 0 = 0xBB := by
    rw [getD_set_ne _ _ _ _ (by omega)]; exact h01
  have hg1 : (f1.set i c).getD 1 0 = 0x02 := by
    rw [getD_set_ne _ _ _ _ (by omega)]; exact h11
  have hg2 : (f1.set i c).getD 2 0 = 0x22 ∨ (f1.set i c).getD 2 0 = 0x27 := by
    rw [getD_set_ne _ _ _ _ (by omega)]; exact h21
  have hg3 : (f1.set i c).getD 3 0 = 0x00 := by
    rw [getD_set_ne _ _ _ _ (by omega)]; exact h31
  have hg4 : (f1.set i c).getD 4 0 = 0x11 := by
    rw [getD_set_ne _ _ _ _ (by omega)]; exact h41
  have hg23 : (f1.set i c).getD 23 0 = 0x7E := by
    rw [getD_set_ne _ _ _ _ (by omega)]; exact he1
  have hwin : ((f1.set i c).drop 1).take 21 =
      ((f1.drop 1).take 21).set (i - 1) c := by
    rw [drop_set_comm c 1 f1 i (by omega),
      take_set_comm c (f1.drop 1) (i - 1) 21 (by omega)]
  have hwl : ((f1.drop 1).take 21).length = 21 := by
    rw [List.length_take, List.length_drop, hl1]
    omega
  have hgetw : ((f1.drop 1).take 21).getD (i - 1) 0 = f1.getD i 0 := by
    rw [List.getD_eq_getElem?_getD, List.getD_eq_getElem?_getD,
      List.getElem?_take, if_pos (show i - 1 < 21 by omega),
      List.getElem?_drop, show 1 + (i - 1) = i from by omega]
  have hi24 : i < f1.length := by rw [hl1]; omega
  have hbmem : f1.getD i 0 < 256 := by
    have hm : f1.getD i 0 ∈ f1 := by
      rw [List.getD_eq_getElem f1 0 hi24]
      exact List.getElem_mem _
    exact hb1 _ hm
  have hsum_set := sum_set_getD ((f1.drop 1).take 21) (i - 1) c
    (by rw [hwl]; omega)
  rw [hgetw] at hsum_set
  have hgbad : ¬ (((f1.set i c).drop 1).take 21).sum % 256 =
      (f1.set i c).getD 22 0 := by
    rw [hwin, getD_set_ne _ _ _ _ (by omega)]
    intro hcontra
    omega
  constructor
  · have step1 := processBufferFuel_card_drop 23 (f1.set i c) latch
      hg0 hg1 hg2 hg3 hg4 (le_of_eq hlg.symm) hg23 hgbad
    norm_num at step1
    unfold processBuffer
    rw [hlg, step1, List.drop_eq_nil_of_le (le_of_eq hlg),
      processBufferFuel_nil]
  · have hlapp : (f1.set i c ++ f2).length = 48 := by
      rw [List.length_append, hlg, hl2]
    have ha0 : (f1.set i c ++ f2).getD 0 0 = 0xBB := by
      rw [getD_append_left _ _ _ (by rw [hlg]; omega)]; exact hg0
    have ha1 : (f1.set i c ++ f2).getD 1 0 = 0x02 := by
      rw [getD_append_left _ _ _ (by rw [hlg]; omega)]; exact hg1
    have ha2 : (f1.set i c ++ f2).getD 2 0 = 0x22 ∨
        (f1.set i c ++ f2).getD 2 0 = 0x27 := by
      rw [getD_append_left _ _ _ (by rw [hlg]; omega)]; exact hg2
    have ha3 : (f1.set i c ++ f2).getD 3 0 = 0x00 := by
      rw [getD_append_left _ _ _ (by rw [hlg]; omega)]; exact hg3
    have ha4 : (f1.set i c ++ f2).getD 4 0 = 0x11 := by
      rw [getD_append_left _ _ _ (by rw [hlg]; omega)]; exact hg4
    have ha23 : (f1.set i c ++ f2).getD 23 0 = 0x7E := by
      rw [getD_append_left _ _ _ (by rw [hlg]; omega)]; exact hg23
    have habad : ¬ (((f1.set i c ++ f2).drop 1).take 21).sum % 256 =
        (f1.set i c ++ f2).getD 22 0 := by
      rw [window_append_left _ _ (by rw [hlg]; omega),
        getD_append_left _ _ _ (by rw [hlg]; omega)]
      exact hgbad
    have step2 := processBufferFuel_card_drop 47 (f1.set i c ++ f2) latch
      ha0 ha1 ha2 ha3 ha4 (by rw [hlapp]; omega) ha23 habad
    norm_num at step2
    have hdrop24 : (f1.set i c ++ f2).drop 24 = f2 := List.drop_left' hlg
    have step3 := processBufferFuel_card_accept 46 f2 latch
      h02 h12 h22 h32 h42 (le_of_eq hl2.symm) he2 hs2
    norm_num at step3
    unfold processBuffer
    rw [hlapp, step2, hdrop24, step3,
      List.take_of_length_le (le_of_eq hl2),
      List.drop_eq_nil_of_le (le_of_eq hl2), processBufferFuel_nil]

instance (f : List Nat) : Decidable (isCardFrame f) := by
  unfold isCardFrame
  infer_instance

/-- Witness for C2: the specification's literal frame with payload byte 8
(the first EPC byte, 0xAA) overwritten by 0x00, followed by an intact copy
of the frame. -/
theorem corrupted_card_frame_dropped_witness :
    processBuffer (exampleCardFrame.set 8 0) false = ([], [], false) ∧
    processBuffer (exampleCardFrame.set 8 0 ++ exampleCardFrame) false =
      ([RWEvent.card (parseCardPacket exampleCardFrame)], [], false) :=
  corrupted_card_frame_dropped exampleCardFrame exampleCardFrame 8 0 false
    (by decide) (by decide) (by decide) (by decide) (by decide) (by decide)

theorem pollResponse_none (input : Nat → Option Nat)
    (hnone : ∀ t, input t = none) :
    ∀ (fuel iter waitCs : Nat) (acc : List Nat), 100 ≤ waitCs + fuel →
      pollResponse input fuel iter waitCs acc = (acc, max waitCs 100) := by
  intro fuel
  induction fuel with
  | zero =>
    intro iter waitCs acc h
    simp only [pollResponse]
    have : max waitCs 100 = waitCs := by omega
    rw [this]
  | succ n ih =>
    intro iter waitCs acc h
    by_cases hw : 100 ≤ waitCs
    · simp only [pollResponse, if_pos hw]
      have : max waitCs 100 = waitCs := by omega
      rw [this]
    · simp only [pollResponse, if_neg hw, hnone iter]
      rw [ih (iter + 1) (waitCs + 1) acc (by omega)]
      have : max (waitCs + 1) 100 = max waitCs 100 := by omega
      rw [this]

theorem sendRetries_succ (input : Nat → Nat → Option Nat)
    (left elapsed : Nat) :
    sendRetries input (left + 1) elapsed =
      (let attempt := MAX_RETRIES - (left + 1)
       let r := pollResponse (input attempt) 101 0 0 []
       let elapsed1 := elapsed + r.2 * SLEEP_POLL_MS
       if r.1 = [] then
         if left = 0 then (SendOutcome.timeoutError, elapsed1)
         else sendRetries input left (elapsed1 + RETRY_DELAY_MS)
       else (SendOutcome.response r.1, elapsed1)) := rfl

/-- **C5.** When none of the three attempts of the synchronous send ever
sees an available byte, `send_command` fails with its timeout error (the
device-no-response `RFIDDeviceError`) rather than returning a response,
after exactly three attempts totalling 3200 ms of modelled waiting —
within the 3 × (1000 ms + 100 ms) bound — so the caller is never blocked
indefinitely. -/
theorem send_times_out_on_three_empty_attempts
    (input : Nat → Nat → Option Nat) (hempty : ∀ a t, input a t = none) :
    sendCommandModel input = (SendOutcome.timeoutError, 3200) ∧
    3200 ≤ MAX_RETRIES * (MAX_WAIT_MS + RETRY_DELAY_MS) := by
  have hp : ∀ a, pollResponse (input a) 101 0 0 [] = ([], 100) := by
    intro a
    rw [pollResponse_none (input a) (hempty a) 101 0 0 [] (by omega)]
    decide
  constructor
  · show sendRetries input MAX_RETRIES 0 = (SendOutcome.timeoutError, 3200)
    have s1 : sendRetries input 3 0 = sendRetries input 2 1100 := by
      rw [show (3 : Nat) = 2 + 1 from rfl, sendRetries_succ]
      simp only [hp]
      norm_num [SLEEP_POLL_MS, RETRY_DELAY_MS]
    have s2 : sendRetries input 2 1100 = sendRetries input 1 2200 := by
      rw [show (2 : Nat) = 1 + 1 from rfl, sendRetries_succ]
      simp only [hp]
      norm_num [SLEEP_POLL_MS, RETRY_DELAY_MS]
    have s3 : sendRetries input 1 2200 = (SendOutcome.timeoutError, 3200) := by
      rw [show (1 : Nat) = 0 + 1 from rfl, sendRetries_succ]
      simp only [hp]
      norm_num [SLEEP_POLL_MS]
    rw [show MAX_RETRIES = 3 from rfl, s1, s2, s3]
  · norm_num [MAX_RETRIES, MAX_WAIT_MS, RETRY_DELAY_MS]

/-- Witness for C5: the everywhere-empty byte schedule. -/
theorem send_times_out_on_three_empty_attempts_witness :
    sendCommandModel (fun _ _ => none) = (SendOutcome.timeoutError, 3200) ∧
    3200 ≤ MAX_RETRIES * (MAX_WAIT_MS + RETRY_DELAY_MS) :=
  send_times_out_on_three_empty_attempts (fun _ _ => none) (fun _ _ => rfl)

/-- Witness for C3 at a concrete mode, EPC, password and read arguments. -/
theorem command_builders_checksum_witness :
    checksumSpecHolds (setSelectModeCmd 0x02) ∧
    checksumSpecHolds (setSelectMaskCmd
      [0xAA, 0xBB, 0xCC, 0xDD, 0xEE, 0xFF, 0x11, 0x22, 0x33, 0x44, 0x55, 0x66]) ∧
    checksumSpecHolds (writeEpcCmd [0x00, 0x00, 0x00, 0x00]
      [0xAA, 0xBB, 0xCC, 0xDD, 0xEE, 0xFF, 0x11, 0x22, 0x33, 0x44, 0x55, 0x66]) ∧
    checksumSpecHolds (readTagMemoryCmd [0x00, 0x00, 0x00, 0x00] 0x01 0x02 0x06) :=
  command_builders_checksum 0x02
    [0xAA, 0xBB, 0xCC, 0xDD, 0xEE, 0xFF, 0x11, 0x22, 0x33, 0x44, 0x55, 0x66]
    [0x00, 0x00, 0x00, 0x00] 0x01 0x02 0x06 (by decide) (by decide)

end RFIDCore

namespace RFIDCore

/-- **C1.** Feeding the literal 24-byte buffer
`BB 02 22 00 11 30 30 00 AA BB CC DD EE FF 11 22 33 44 55 66 12 34 3B 7E`
to the inventory decoder loop produces exactly one card event with
`rssi = "-48"`, `pc = "30 00"`,
`epc = "AA BB CC DD EE FF 11 22 33 44 55 66"`, `crc = "12 34"`, consuming
the whole buffer; the RSSI byte 0x30 = 48 is not above 127, so the
conversion yields −48. -/
theorem inventory_decodes_literal_frame :
    processBuffer exampleCardFrame false =
      ([RWEvent.card
          { rssi := "-48", pc := "30 00",
            epc := "AA BB CC DD EE FF 11 22 33 44 55 66", crc := "12 34" }],
        [], false) := by
  decide

/-- C6 counterexample: the empty EPC string decodes cleanly to zero bytes
— fewer than 12 — yet `set_select_params` does not reject it: the empty
string is falsy in Python, so the clear-Select branch runs, one frame (the
Select-mode 0x01 command) is written to the transport, and the call
returns success. -/
theorem empty_epc_string_not_rejected :
    hexDecode (([] : List Char).filter (fun c => !(c == Char.ofNat 32))) =
      some [] ∧
    ([] : List Nat).length < 12 ∧
    setSelectParamsRun (fun _ => []) (some []) =
      (true, [setSelectModeCmd 0x01]) := by
  refine ⟨rfl, by decide, rfl⟩

/-- **C6 (amended).** For every non-empty input EPC string that decodes to
fewer than 12 bytes, or is not valid hexadecimal, `set_select_params`
returns the invalid-argument failure (`False`) and performs zero writes to
the serial transport — the argument is rejected before any I/O.  (The
empty string is excluded: being falsy it selects the clear-Select branch,
which writes a mode command and succeeds.) -/
theorem short_epc_rejected_before_io (send : List Nat → List Nat)
    (epc : List Char) (hne : epc ≠ [])
    (hbad : hexDecode (epc.filter (fun c => !(c == Char.ofNat 32))) = none ∨
      ∃ bs, hexDecode (epc.filter (fun c => !(c == Char.ofNat 32))) = some bs ∧
        bs.length < 12) :
    setSelectParamsRun send (some epc) = (false, []) := by
  have ht : targetTruthy (some epc) = true := by
    unfold targetTruthy
    cases epc with
    | nil => exact absurd rfl hne
    | cons c cs => rfl
  unfold setSelectParamsRun
  rw [if_pos ht]
  rcases hbad with hd | ⟨bs, hd, hlen⟩
  · simp only [Option.getD_some, hd]
  · simp only [Option.getD_some, hd]
    rw [if_pos (by omega : bs.length ≠ 12)]

/-- Witness for the amended C6: the two-character string AA decodes to the
single byte 0xAA. -/
theorem short_epc_rejected_before_io_witness :
    setSelectParamsRun (fun _ => []) (some [Char.ofNat 65, Char.ofNat 65]) =
      (false, []) :=
  short_epc_rejected_before_io (fun _ => []) [Char.ofNat 65, Char.ofNat 65]
    (by decide) (Or.inr ⟨[0xAA], by decide, by decide⟩)

/-- C7 counterexample: after a transport-level error inside
`read_card_once` on a session whose last-used port is recorded, the
operation itself calls `connect` on that port — one automatic reconnect
attempt is made, and when the port opens the session ends up connected
again — contradicting "no operation reopens the port on its own". -/
theorem read_once_auto_reconnects :
    (readCardOnceModel sampleConnectedState SendExc.excDisconnected
        true).2.2 = ["COM3"] ∧
    (readCardOnceModel sampleConnectedState SendExc.excDisconnected
        true).2.1.ser = some "COM3" := by
  exact ⟨rfl, rfl⟩

/-- **C7 (amended).** After a transport-level error during
`read_card_once` the session is marked Disconnected (the port handle is
cleared); but instead of leaving reconnection to the caller, the operation
then uses the recorded last-used port for one automatic `connect` attempt
— reopening the port on its own when it is available — and only a session
with no recorded port stays disconnected with no reconnect attempt. -/
theorem transport_error_disconnects_then_auto_reconnects
    (st : ReaderState) (p : String) (cOk : Bool) (hser : st.ser = some p) :
    (∀ lp, st.lastPort = some lp →
      readCardOnceModel st SendExc.excDisconnected cOk =
        (none, (connectModel { st with ser := none } lp cOk).2, [lp])) ∧
    (st.lastPort = none →
      readCardOnceModel st SendExc.excDisconnected cOk =
        (none, { st with ser := none }, [])) := by
  constructor
  · intro lp hlp
    unfold readCardOnceModel
    rw [hser]
    simp [hlp]
  · intro hlp
    unfold readCardOnceModel
    rw [hser]
    simp [hlp]

/-- Witness for the amended C7 at the concrete connected session. -/
theorem transport_error_auto_reconnect_witness :
    readCardOnceModel sampleConnectedState SendExc.excDisconnected true =
      (none,
        (connectModel { sampleConnectedState with ser := none } "COM3"
            true).2,
        ["COM3"]) :=
  (transport_error_disconnects_then_auto_reconnects sampleConnectedState
    "COM3" true rfl).1 "COM3" rfl

/-- C8 counterexample: disconnecting a session that holds a cached gain,
a stored Select parameter and a recorded power level closes and releases
the port handle but leaves all three caches populated — they are not
reset to their initial no-value state. -/
theorem disconnect_keeps_cached_state :
    (disconnectModel sampleConnectedState true true).2.1.ser = none ∧
    (disconnectModel sampleConnectedState true true).2.1.gain = some 1700 ∧
    (disconnectModel sampleConnectedState true true).2.1.selectParam =
      some [Char.ofNat 65] ∧
    (disconnectModel sampleConnectedState true true).2.1.currentPower =
      some "17 dBm (1m)" := by
  exact ⟨rfl, rfl, rfl, rfl⟩

/-- **C8 (amended).** For every session state, after `disconnect()` the
transport handle is closed and released (the handle field is `None`), but
the cached session state — the cached gain, the stored Select parameters
and the recorded power level — is retained unchanged rather than cleared. -/
theorem disconnect_releases_port_keeps_caches (st : ReaderState)
    (sendOk closeOk : Bool) :
    (disconnectModel st sendOk closeOk).2.1.ser = none ∧
    (disconnectModel st sendOk closeOk).2.1.gain = st.gain ∧
    (disconnectModel st sendOk closeOk).2.1.selectParam = st.selectParam ∧
    (disconnectModel st sendOk closeOk).2.1.currentPower = st.currentPower := by
  rcases st with ⟨ser, lp, gra, cp, g, sm, sp⟩
  cases ser <;> cases gra <;> cases sendOk <;>
    simp [disconnectModel, stopReadingModel]

/-- **C9.** `stop_reading` is idempotent on an Idle, connected session:
with group reading already stopped it returns success, changes no session
state and writes nothing to the transport; calling it twice in a row
therefore succeeds both times, the second call being a pure no-op. -/
theorem stop_reading_idempotent_when_idle (st : ReaderState) (p : String)
    (e1 e2 : Bool) (hser : st.ser = some p)
    (hidle : st.groupReadActive = false) :
    stopReadingModel st e1 = (true, st, []) ∧
    stopReadingModel (stopReadingModel st e1).2.1 e2 = (true, st, []) := by
  have h : ∀ e, stopReadingModel st e = (true, st, []) := by
    intro e
    unfold stopReadingModel
    rw [hser]
    simp [hidle]
  refine ⟨h e1, ?_⟩
  rw [h e1]
  exact h e2

/-- Witness for C9 at the concrete connected idle session. -/
theorem stop_reading_idempotent_when_idle_witness :
    stopReadingModel sampleConnectedState true = (true, sampleConnectedState, []) ∧
    stopReadingModel (stopReadingModel sampleConnectedState true).2.1 false =
      (true, sampleConnectedState, []) :=
  stop_reading_idempotent_when_idle sampleConnectedState "COM3" true false
    rfl rfl

/-- **C10.** Calling `stop_reading` while the session is not connected and
group reading is marked active returns `False`, writes nothing, and leaves
the state — in particular the group-read flag — unchanged: the session
never transitions from Inventorying back to Idle on this path, so a
disconnected session stays marked as Inventorying. -/
theorem stop_reading_disconnected_keeps_inventorying (st : ReaderState)
    (e : Bool) (hser : st.ser = none) (hact : st.groupReadActive = true) :
    stopReadingModel st e = (false, st, []) ∧
    (stopReadingModel st e).2.1.groupReadActive = true := by
  have h : stopReadingModel st e = (false, st, []) := by
    unfold stopReadingModel
    rw [hser]
  refine ⟨h, ?_⟩
  rw [h]
  exact hact

/-- Witness for C10 at the concrete disconnected, still-inventorying
session. -/
theorem stop_reading_disconnected_keeps_inventorying_witness :
    stopReadingModel sampleStuckState false = (false, sampleStuckState, []) ∧
    (stopReadingModel sampleStuckState false).2.1.groupReadActive = true :=
  stop_reading_disconnected_keeps_inventorying sampleStuckState false rfl rfl

end RFIDCore
